import Mathlib

/-
Verification of the capture/analysis orchestration workflow of the
spotify-emoter frontend (src/frontend/src/App.js).

The component is embedded as an explicit state machine:
  * AppState mirrors the useState hooks of the App component
    (text, emotion, songs, details, loading, webcamActive; darkMode is
    pure presentation and omitted);
  * Sys adds the single-shot setTimeout handle of the webcamActive
    useEffect (timerArmed) and the at-most-one in-flight axios request
    (pending);
  * each user event, timer expiry and request completion is a total
    function on Sys, translated line by line from App.js.
-/

namespace SpotifyEmoter

/-- A song as received verbatim from the remote service; the rendering
reads name, artist, url and the two optional image references. -/
structure Song where
  name : String
  artist : String
  url : String
  album_image : Option String
  artist_image : Option String
deriving Repr, DecidableEq

/-- The useState hooks of the App component (App.js lines 64-69). -/
structure AppState where
  text : String
  emotion : String
  songs : List Song
  details : String
  loading : Bool
  webcamActive : Bool
deriving Repr, DecidableEq

/-- A 2xx response body: `res.data`.  The songs field may be absent
(`res.data.songs || []` in the code), hence Option. -/
structure ResponseBody where
  emotion : String
  songs : Option (List Song)
  details : String
deriving Repr, DecidableEq

/-- Completion of an axios call: a 2xx body, or any transport / non-2xx
failure (caught uniformly by the catch block). -/
inductive RemoteOutcome where
  | success (body : ResponseBody)
  | failure
deriving Repr, DecidableEq

/-- Which endpoint the in-flight request was posted to. -/
inductive Pending where
  | textReq
  | faceReq
deriving Repr, DecidableEq

/-- Whole-system state: component state, the armed single-shot timer of the
webcamActive useEffect, and the in-flight request if any. -/
structure Sys where
  app : AppState
  timerArmed : Bool
  pending : Option Pending
deriving Repr, DecidableEq

def initialApp : AppState :=
  { text := "", emotion := "", songs := [], details := "",
    loading := false, webcamActive := false }

def initialSys : Sys :=
  { app := initialApp, timerArmed := false, pending := none }

/-- Diagnostic set on webcam capture failure (App.js line 103). -/
def captureFailMsg : String := "Failed to capture image from webcam"

/-- Diagnostic set when the text-analysis request fails (line 90). -/
def textFailMsg : String := "Error occurred while analyzing text"

/-- Diagnostic set when the face-analysis request fails (line 115). -/
def faceFailMsg : String := "Error occurred while analyzing face"

def errorDiagnostics : List String := [textFailMsg, faceFailMsg, captureFailMsg]

/-- The discrete phase of the spec's Session State Machine. -/
inductive Phase where
  | Idle
  | Loading
  | Result
  | Error
deriving Repr, DecidableEq

/-- Derived phase observer: loading renders the spinner (Loading); a local
diagnostic in details marks a failure (Error); a nonempty emotion with no
diagnostic is a result (Result); otherwise nothing is shown (Idle). -/
def phase (s : AppState) : Phase :=
  if s.loading then Phase.Loading
  else if s.details ∈ errorDiagnostics then Phase.Error
  else if s.emotion = "" then Phase.Idle
  else Phase.Result

/-- The Analyze Text button (lines 202-212): disabled while loading or when
the text field is empty; otherwise runs analyzeText up to its await point
(lines 76-82): setLoading(true), clear emotion/songs/details, and post the
request to /text-emotion. -/
def clickAnalyzeText (y : Sys) : Sys :=
  if y.app.loading || y.app.text = "" then y
  else
    { y with
      app := { y.app with loading := true, emotion := "", songs := [],
                          details := "" },
      pending := some Pending.textReq }

/-- Completion of analyzeText (lines 83-92): on success copy emotion,
songs (defaulted to [] when absent) and details from the body; on failure
set the neutral fallback, empty songs and the fixed diagnostic.  Both
paths end with setLoading(false). -/
def analyzeTextResolve (s : AppState) (o : RemoteOutcome) : AppState :=
  match o with
  | RemoteOutcome.success body =>
      { s with emotion := body.emotion, songs := body.songs.getD [],
               details := body.details, loading := false }
  | RemoteOutcome.failure =>
      { s with emotion := "neutral", songs := [],
               details := textFailMsg, loading := false }

/-- Completion of analyzeFace after its request was posted (lines 108-118):
same contract as the text path, with its own diagnostic, and in addition
setWebcamActive(false) runs on both paths. -/
def analyzeFaceResolve (s : AppState) (o : RemoteOutcome) : AppState :=
  match o with
  | RemoteOutcome.success body =>
      { s with emotion := body.emotion, songs := body.songs.getD [],
               details := body.details, loading := false,
               webcamActive := false }
  | RemoteOutcome.failure =>
      { s with emotion := "neutral", songs := [],
               details := faceFailMsg, loading := false,
               webcamActive := false }

/-- Resolution of the in-flight axios request, if any. -/
def resolveRemote (y : Sys) (o : RemoteOutcome) : Sys :=
  match y.pending with
  | none => y
  | some Pending.textReq =>
      { y with app := analyzeTextResolve y.app o, pending := none }
  | some Pending.faceReq =>
      { y with app := analyzeFaceResolve y.app o, pending := none }

/-- The Scan Face button (lines 214-225): disabled while loading; otherwise
setWebcamActive(!webcamActive).  The webcamActive useEffect (lines 121-130)
then runs: its cleanup clears any pending timeout, and when webcamActive is
now true it does setLoading(true) and arms the 5000 ms single-shot timer. -/
def clickScanFace (y : Sys) : Sys :=
  if y.app.loading then y
  else if y.app.webcamActive then
    { y with app := { y.app with webcamActive := false }, timerArmed := false }
  else
    { y with app := { y.app with webcamActive := true, loading := true },
             timerArmed := true }

/-- Deactivation without the button guard: setWebcamActive(false) followed by
the useEffect cleanup clearTimeout (this is the component-teardown path, and
the only state the cleanup touches). -/
def deactivate (y : Sys) : Sys :=
  { y with app := { y.app with webcamActive := false }, timerArmed := false }

/-- Expiry of the armed timer: analyzeFace runs (lines 95-107).  It sets
loading and clears emotion/songs/details, then captures a frame; frame =
none models getScreenshot() returning no image, in which case loading is
reset, only details receives the capture diagnostic, and the function
returns with no request posted (webcamActive is not touched).  With a frame
the request is posted to /face-emotion and stays in flight. -/
def timerFire (y : Sys) (frame : Option String) : Sys :=
  if y.timerArmed then
    let s := { y.app with loading := true, emotion := "", songs := [],
                          details := "" }
    match frame with
    | none =>
        { y with app := { s with loading := false, details := captureFailMsg },
                 timerArmed := false }
    | some _ =>
        { y with app := s, timerArmed := false,
                 pending := some Pending.faceReq }
  else y

/-- Concrete song of end-to-end scenario A. -/
def songA : Song :=
  { name := "Song A", artist := "Artist A", url := "http://x",
    album_image := none, artist_image := none }

/-- Concrete 2xx body of end-to-end scenario A. -/
def happyBody : ResponseBody :=
  { emotion := "happy", songs := some [songA], details := "Upbeat vibes" }

/-- A session sitting at a Result produced by a completed text analysis. -/
def resultSys : Sys :=
  resolveRemote
    (clickAnalyzeText { initialSys with app := { initialApp with text := "I feel great" } })
    (RemoteOutcome.success happyBody)

/-- Claim C1 counterexample: activating capture from a Result state (the
webcamActive useEffect) only sets loading — it does not clear the stale
emotion and songs, so during the 5000 ms armed window the session is
Loading with emotion "happy" and a nonempty song list. -/
theorem C1_counterexample :
    (clickScanFace resultSys).app.loading = true ∧
    (clickScanFace resultSys).app.emotion = "happy" ∧
    (clickScanFace resultSys).app.songs = [songA] := by
  refine ⟨rfl, rfl, rfl⟩

/-- Claim C1 (amended): when Loading is entered by dispatching an analysis —
a text submission, or timer expiry that captures a frame — emotion is
cleared to "" and songs to []; but when Loading is entered by capture
activation, the prior emotion and songs are retained unchanged for the
whole 5000 ms armed window. -/
theorem C1_loading_clears_only_on_dispatch (y : Sys)
    (hl : y.app.loading = false) :
    (y.app.text ≠ "" →
      (clickAnalyzeText y).app.loading = true ∧
      (clickAnalyzeText y).app.emotion = "" ∧
      (clickAnalyzeText y).app.songs = []) ∧
    (∀ img : String, y.timerArmed = true →
      (timerFire y (some img)).app.loading = true ∧
      (timerFire y (some img)).app.emotion = "" ∧
      (timerFire y (some img)).app.songs = []) ∧
    (y.app.webcamActive = false →
      (clickScanFace y).app.loading = true ∧
      (clickScanFace y).app.emotion = y.app.emotion ∧
      (clickScanFace y).app.songs = y.app.songs) := by
  refine ⟨fun h => ?_, fun img h => ?_, fun h => ?_⟩ <;>
    simp [clickAnalyzeText, timerFire, clickScanFace, hl, h]

/-- Witness for the amended C1 at the concrete Result session. -/
theorem C1_loading_clears_only_on_dispatch_witness :
    resultSys.app.loading = false ∧
    ((resultSys.app.text ≠ "" →
      (clickAnalyzeText resultSys).app.loading = true ∧
      (clickAnalyzeText resultSys).app.emotion = "" ∧
      (clickAnalyzeText resultSys).app.songs = []) ∧
    (∀ img : String, resultSys.timerArmed = true →
      (timerFire resultSys (some img)).app.loading = true ∧
      (timerFire resultSys (some img)).app.emotion = "" ∧
      (timerFire resultSys (some img)).app.songs = []) ∧
    (resultSys.app.webcamActive = false →
      (clickScanFace resultSys).app.loading = true ∧
      (clickScanFace resultSys).app.emotion = resultSys.app.emotion ∧
      (clickScanFace resultSys).app.songs = resultSys.app.songs)) :=
  ⟨rfl, C1_loading_clears_only_on_dispatch resultSys rfl⟩

/-- Claim C2 counterexample: activate from the initial Idle state, then
deactivate before the 5000 ms expiry: loading is never reset, so the phase
is Loading, not the pre-activation Idle. -/
theorem C2_counterexample :
    phase initialSys.app = Phase.Idle ∧
    phase (deactivate (clickScanFace initialSys)).app = Phase.Loading := by
  decide

/-- Claim C2 (amended): deactivating before expiry cancels the timer, so no
frame is ever captured and no analysis call is dispatched, and emotion,
songs and details are untouched; but loading stays true — the phase is left
at Loading instead of returning to its pre-activation value. -/
theorem C2_deactivate_cancels_but_loading_sticks (y : Sys)
    (hl : y.app.loading = false) (hw : y.app.webcamActive = false) :
    (deactivate (clickScanFace y)).timerArmed = false ∧
    (deactivate (clickScanFace y)).pending = y.pending ∧
    (∀ frame, timerFire (deactivate (clickScanFace y)) frame
        = deactivate (clickScanFace y)) ∧
    (deactivate (clickScanFace y)).app.emotion = y.app.emotion ∧
    (deactivate (clickScanFace y)).app.songs = y.app.songs ∧
    (deactivate (clickScanFace y)).app.details = y.app.details ∧
    (deactivate (clickScanFace y)).app.loading = true := by
  simp [clickScanFace, deactivate, timerFire, hl, hw]

/-- Witness for the amended C2 at the initial Idle session. -/
theorem C2_deactivate_cancels_but_loading_sticks_witness :
    initialSys.app.loading = false ∧ initialSys.app.webcamActive = false ∧
    ((deactivate (clickScanFace initialSys)).timerArmed = false ∧
    (deactivate (clickScanFace initialSys)).pending = initialSys.pending ∧
    (∀ frame, timerFire (deactivate (clickScanFace initialSys)) frame
        = deactivate (clickScanFace initialSys)) ∧
    (deactivate (clickScanFace initialSys)).app.emotion = initialSys.app.emotion ∧
    (deactivate (clickScanFace initialSys)).app.songs = initialSys.app.songs ∧
    (deactivate (clickScanFace initialSys)).app.details = initialSys.app.details ∧
    (deactivate (clickScanFace initialSys)).app.loading = true) :=
  ⟨rfl, rfl, C2_deactivate_cancels_but_loading_sticks initialSys rfl rfl⟩

/-- Claim C3 counterexample: activate, then the timer expires with no frame
available: setWebcamActive(false) is never executed on this path (it sits
after the analysis request, lines 117-118), so the webcam stays active. -/
theorem C3_counterexample :
    (timerFire (clickScanFace initialSys) none).app.webcamActive = true := by
  rfl

/-- Claim C3 (amended): when the timer expires and capture fails, the
session becomes Error with the capture diagnostic, no analysis request is
issued and the timer is disarmed — but the webcam remains active
(webcamActive stays true; the scheduler does not return to Inactive). -/
theorem C3_capture_failure_error_no_analysis (y : Sys)
    (hl : y.app.loading = false) (hw : y.app.webcamActive = false)
    (hp : y.pending = none) :
    (timerFire (clickScanFace y) none).app.details = captureFailMsg ∧
    (timerFire (clickScanFace y) none).app.loading = false ∧
    phase (timerFire (clickScanFace y) none).app = Phase.Error ∧
    (timerFire (clickScanFace y) none).pending = none ∧
    (timerFire (clickScanFace y) none).timerArmed = false ∧
    (timerFire (clickScanFace y) none).app.webcamActive = true := by
  simp [clickScanFace, timerFire, phase, errorDiagnostics, captureFailMsg,
        textFailMsg, faceFailMsg, hl, hw, hp]

/-- Witness for the amended C3 at the initial Idle session. -/
theorem C3_capture_failure_error_no_analysis_witness :
    initialSys.app.loading = false ∧ initialSys.app.webcamActive = false ∧
    initialSys.pending = none ∧
    ((timerFire (clickScanFace initialSys) none).app.details = captureFailMsg ∧
    (timerFire (clickScanFace initialSys) none).app.loading = false ∧
    phase (timerFire (clickScanFace initialSys) none).app = Phase.Error ∧
    (timerFire (clickScanFace initialSys) none).pending = none ∧
    (timerFire (clickScanFace initialSys) none).timerArmed = false ∧
    (timerFire (clickScanFace initialSys) none).app.webcamActive = true) :=
  ⟨rfl, rfl, rfl, C3_capture_failure_error_no_analysis initialSys rfl rfl rfl⟩

/-- Claim C4: a second activation before expiry is a no-op (the Scan Face
button is disabled while loading, which activation sets), leaving exactly
one armed timer; and the armed timer yields exactly one capture attempt —
a second expiry is a no-op after the first. -/
theorem C4_activate_idempotent (y : Sys)
    (hl : y.app.loading = false) (hw : y.app.webcamActive = false) :
    clickScanFace (clickScanFace y) = clickScanFace y ∧
    (clickScanFace y).timerArmed = true ∧
    (∀ f f', timerFire (timerFire (clickScanFace y) f) f'
        = timerFire (clickScanFace y) f) := by
  refine ⟨?_, ?_, fun f f' => ?_⟩
  · simp [clickScanFace, hl, hw]
  · simp [clickScanFace, hl, hw]
  · cases f <;> simp [clickScanFace, timerFire, hl, hw]

/-- Witness for C4 at the initial Idle session. -/
theorem C4_activate_idempotent_witness :
    initialSys.app.loading = false ∧ initialSys.app.webcamActive = false ∧
    (clickScanFace (clickScanFace initialSys) = clickScanFace initialSys ∧
    (clickScanFace initialSys).timerArmed = true ∧
    (∀ f f', timerFire (timerFire (clickScanFace initialSys) f) f'
        = timerFire (clickScanFace initialSys) f)) :=
  ⟨rfl, rfl, C4_activate_idempotent initialSys rfl rfl⟩

/-- Claim C5: any transport or non-2xx failure of an in-flight request takes
the session from Loading to Error with emotion "neutral", empty songs, the
fixed per-path diagnostic, and no retry (no request remains in flight). -/
theorem C5_failure_contract (y : Sys) (k : Pending)
    (hp : y.pending = some k) (hl : y.app.loading = true) :
    phase y.app = Phase.Loading ∧
    (resolveRemote y RemoteOutcome.failure).app.emotion = "neutral" ∧
    (resolveRemote y RemoteOutcome.failure).app.songs = [] ∧
    (resolveRemote y RemoteOutcome.failure).app.loading = false ∧
    (k = Pending.textReq →
      (resolveRemote y RemoteOutcome.failure).app.details = textFailMsg) ∧
    (k = Pending.faceReq →
      (resolveRemote y RemoteOutcome.failure).app.details = faceFailMsg) ∧
    phase (resolveRemote y RemoteOutcome.failure).app = Phase.Error ∧
    (resolveRemote y RemoteOutcome.failure).pending = none := by
  cases k <;>
    simp [resolveRemote, analyzeTextResolve, analyzeFaceResolve, phase,
          errorDiagnostics, textFailMsg, faceFailMsg, captureFailMsg, hp, hl]

/-- A session with a text request in flight, for the failure witnesses. -/
def loadingTextSys : Sys :=
  clickAnalyzeText { initialSys with app := { initialApp with text := "I feel great" } }

/-- Witness for C5: the in-flight text request of scenario C fails. -/
theorem C5_failure_contract_witness :
    loadingTextSys.pending = some Pending.textReq ∧
    loadingTextSys.app.loading = true ∧
    (phase loadingTextSys.app = Phase.Loading ∧
    (resolveRemote loadingTextSys RemoteOutcome.failure).app.emotion = "neutral" ∧
    (resolveRemote loadingTextSys RemoteOutcome.failure).app.songs = [] ∧
    (resolveRemote loadingTextSys RemoteOutcome.failure).app.loading = false ∧
    (Pending.textReq = Pending.textReq →
      (resolveRemote loadingTextSys RemoteOutcome.failure).app.details = textFailMsg) ∧
    (Pending.textReq = Pending.faceReq →
      (resolveRemote loadingTextSys RemoteOutcome.failure).app.details = faceFailMsg) ∧
    phase (resolveRemote loadingTextSys RemoteOutcome.failure).app = Phase.Error ∧
    (resolveRemote loadingTextSys RemoteOutcome.failure).pending = none) :=
  ⟨rfl, rfl, C5_failure_contract loadingTextSys Pending.textReq rfl rfl⟩

/-- Claim C6: a 2xx response takes the session from Loading to Result with
emotion, details and songs copied from the body; an absent songs field
defaults to the empty list and still yields Result, not Error. -/
theorem C6_success_contract (y : Sys) (k : Pending) (body : ResponseBody)
    (hp : y.pending = some k) (hl : y.app.loading = true)
    (he : body.emotion ≠ "") (hd : body.details ∉ errorDiagnostics) :
    phase y.app = Phase.Loading ∧
    (resolveRemote y (RemoteOutcome.success body)).app.emotion = body.emotion ∧
    (resolveRemote y (RemoteOutcome.success body)).app.details = body.details ∧
    (resolveRemote y (RemoteOutcome.success body)).app.songs = body.songs.getD [] ∧
    (resolveRemote y (RemoteOutcome.success body)).app.loading = false ∧
    (body.songs = none →
      (resolveRemote y (RemoteOutcome.success body)).app.songs = []) ∧
    phase (resolveRemote y (RemoteOutcome.success body)).app = Phase.Result := by
  cases k <;>
    simp [resolveRemote, analyzeTextResolve, analyzeFaceResolve, phase,
          hp, hl, hd, he] <;>
    intro h <;> simp [h]

/-- A session with a face request in flight: activation, then expiry with a
captured frame. -/
def loadingFaceSys : Sys :=
  timerFire (clickScanFace initialSys) (some "data:image/jpeg;base64,AAAA")

/-- A 2xx body with the songs field absent, as in scenario E. -/
def calmBody : ResponseBody :=
  { emotion := "calm", songs := none, details := "Easy does it" }

/-- Witness for C6: the in-flight face request resolves with a 2xx body
whose songs field is absent; the session is a Result with empty songs. -/
theorem C6_success_contract_witness :
    loadingFaceSys.pending = some Pending.faceReq ∧
    loadingFaceSys.app.loading = true ∧
    calmBody.emotion ≠ "" ∧ calmBody.details ∉ errorDiagnostics ∧
    (phase loadingFaceSys.app = Phase.Loading ∧
    (resolveRemote loadingFaceSys (RemoteOutcome.success calmBody)).app.emotion = calmBody.emotion ∧
    (resolveRemote loadingFaceSys (RemoteOutcome.success calmBody)).app.details = calmBody.details ∧
    (resolveRemote loadingFaceSys (RemoteOutcome.success calmBody)).app.songs = calmBody.songs.getD [] ∧
    (resolveRemote loadingFaceSys (RemoteOutcome.success calmBody)).app.loading = false ∧
    (calmBody.songs = none →
      (resolveRemote loadingFaceSys (RemoteOutcome.success calmBody)).app.songs = []) ∧
    phase (resolveRemote loadingFaceSys (RemoteOutcome.success calmBody)).app = Phase.Result) :=
  ⟨rfl, rfl, by decide, by decide,
    C6_success_contract loadingFaceSys Pending.faceReq calmBody rfl rfl
      (by decide) (by decide)⟩

/-- Claim C7: once the timer has fired and the face request is in flight,
deactivating (cancelling the already-fired timer, toggling the webcam off)
does not change the resolution of that request: the whole system reaches
the same state for every outcome. -/
theorem C7_stale_completion (y : Sys) (o : RemoteOutcome)
    (hp : y.pending = some Pending.faceReq) (ht : y.timerArmed = false) :
    resolveRemote (deactivate y) o = resolveRemote y o := by
  cases o <;>
    simp [deactivate, resolveRemote, analyzeFaceResolve, hp, ht]

/-- Witness for C7: the in-flight face request resolves identically whether
or not deactivate intervened, on both a success and a failure outcome. -/
theorem C7_stale_completion_witness :
    loadingFaceSys.pending = some Pending.faceReq ∧
    loadingFaceSys.timerArmed = false ∧
    resolveRemote (deactivate loadingFaceSys) (RemoteOutcome.success happyBody)
      = resolveRemote loadingFaceSys (RemoteOutcome.success happyBody) ∧
    resolveRemote (deactivate loadingFaceSys) RemoteOutcome.failure
      = resolveRemote loadingFaceSys RemoteOutcome.failure :=
  ⟨rfl, rfl,
    C7_stale_completion loadingFaceSys (RemoteOutcome.success happyBody) rfl rfl,
    C7_stale_completion loadingFaceSys RemoteOutcome.failure rfl rfl⟩

/-- Claim C8: with an empty text field the Analyze Text button is disabled,
so the analysis is never invoked and the whole system state — in particular
the phase — is unchanged. -/
theorem C8_empty_text_rejected (y : Sys) (h : y.app.text = "") :
    clickAnalyzeText y = y := by
  simp [clickAnalyzeText, h]

/-- Witness for C8 at the initial session, whose text field is empty. -/
theorem C8_empty_text_rejected_witness :
    initialSys.app.text = "" ∧ clickAnalyzeText initialSys = initialSys :=
  ⟨rfl, C8_empty_text_rejected initialSys rfl⟩

/-- Claim C9: no failure escapes as an exception — every outcome of an
in-flight request resolves the operation into plain session fields with
loading cleared and nothing left in flight, a failure outcome lands in the
Error phase, and a capture failure likewise resolves into Error fields. -/
theorem C9_failures_resolve_into_state (y : Sys) (k : Pending)
    (hp : y.pending = some k) :
    (∀ o, (resolveRemote y o).pending = none ∧
          (resolveRemote y o).app.loading = false) ∧
    phase (resolveRemote y RemoteOutcome.failure).app = Phase.Error ∧
    (∀ z : Sys, z.timerArmed = true →
      (timerFire z none).app.loading = false ∧
      phase (timerFire z none).app = Phase.Error) := by
  refine ⟨fun o => ?_, ?_, fun z hz => ?_⟩
  · cases k <;> cases o <;>
      simp [resolveRemote, analyzeTextResolve, analyzeFaceResolve, hp]
  · cases k <;>
      simp [resolveRemote, analyzeTextResolve, analyzeFaceResolve, phase,
            errorDiagnostics, textFailMsg, faceFailMsg, captureFailMsg, hp]
  · simp [timerFire, phase, errorDiagnostics, textFailMsg, faceFailMsg,
          captureFailMsg, hz]

/-- Witness for C9 at the session with a text request in flight. -/
theorem C9_failures_resolve_into_state_witness :
    loadingTextSys.pending = some Pending.textReq ∧
    ((∀ o, (resolveRemote loadingTextSys o).pending = none ∧
          (resolveRemote loadingTextSys o).app.loading = false) ∧
    phase (resolveRemote loadingTextSys RemoteOutcome.failure).app = Phase.Error ∧
    (∀ z : Sys, z.timerArmed = true →
      (timerFire z none).app.loading = false ∧
      phase (timerFire z none).app = Phase.Error)) :=
  ⟨rfl, C9_failures_resolve_into_state loadingTextSys Pending.textReq rfl⟩

/-- Claim C10: after a webcam capture failure the emotion is the empty
string — not the "neutral" fallback of analysis failures — and the songs
are empty; only details carries the capture diagnostic, so the state is
distinguishable from an analysis-failure state. -/
theorem C10_capture_failure_distinct (y : Sys) (ht : y.timerArmed = true) :
    (timerFire y none).app.emotion = "" ∧
    (timerFire y none).app.songs = [] ∧
    (timerFire y none).app.details = captureFailMsg ∧
    (timerFire y none).app.emotion ≠ "neutral" := by
  simp [timerFire, ht]

/-- Witness for C10 at an armed session. -/
theorem C10_capture_failure_distinct_witness :
    (clickScanFace initialSys).timerArmed = true ∧
    ((timerFire (clickScanFace initialSys) none).app.emotion = "" ∧
    (timerFire (clickScanFace initialSys) none).app.songs = [] ∧
    (timerFire (clickScanFace initialSys) none).app.details = captureFailMsg ∧
    (timerFire (clickScanFace initialSys) none).app.emotion ≠ "neutral") :=
  ⟨rfl, C10_capture_failure_distinct (clickScanFace initialSys) rfl⟩

end SpotifyEmoter
